import Mathlib

/-!
Shallow embedding of the `gin-api-handler` repository: a thin adapter between
a web framework's request objects and typed handler functions.  The embedding
covers the business-error value (`biz_error.go`), the success/error response
envelopes and error dispatch (`api_handler.go`), reflection-driven path
parameter binding (`bindPathParams`), and the message-translation layer
(`i18n.go`).  Machine strings are Lean `String`s, Go's `any` values are
modelled by a dynamic `JsonValue`, and Go's 64-bit integer parsing is modelled
with explicit range checks over `Int`/`Nat`.
-/

namespace GinApiHandler

/-- Dynamic JSON-like value standing for Go's `any` (used for business codes,
sub-error entries and serialized response bodies). -/
inductive JsonValue where
  | null : JsonValue
  | num (n : Int) : JsonValue
  | str (s : String) : JsonValue
  | boolean (b : Bool) : JsonValue
  | arr (xs : List JsonValue) : JsonValue
  | obj (fields : List (String × JsonValue)) : JsonValue

/-- Keys of a serialized JSON object (empty for non-objects). -/
def JsonValue.objKeys : JsonValue → List String
  | .obj fields => fields.map Prod.fst
  | _ => []

/-- `BaseBizError` from `biz_error.go`: code (dynamic), message, HTTP status
code, optional detail list.  The Go field `errors` is a nilable slice; the
empty list models both nil and empty, which the wire format cannot tell
apart (`omitempty`). -/
structure BaseBizError where
  code : JsonValue
  message : String
  httpCode : Nat
  errors : List JsonValue

/-- `NewBizError(code, message, httpCode)`: detail list left nil. -/
def NewBizError (code : JsonValue) (message : String) (httpCode : Nat) : BaseBizError :=
  { code := code, message := message, httpCode := httpCode, errors := [] }

/-- `NewBizErrorWithDetails(code, message, httpCode, errors)`. -/
def NewBizErrorWithDetails (code : JsonValue) (message : String) (httpCode : Nat)
    (errors : List JsonValue) : BaseBizError :=
  { code := code, message := message, httpCode := httpCode, errors := errors }

/-- `ErrBadRequest(code, msg)` (`http.StatusBadRequest` = 400). -/
def ErrBadRequest (code : JsonValue) (msg : String) : BaseBizError :=
  NewBizError code msg 400

/-- `ErrUnauthorized(code, msg)` (`http.StatusUnauthorized` = 401). -/
def ErrUnauthorized (code : JsonValue) (msg : String) : BaseBizError :=
  NewBizError code msg 401

/-- `ErrForbidden(code, msg)` (`http.StatusForbidden` = 403). -/
def ErrForbidden (code : JsonValue) (msg : String) : BaseBizError :=
  NewBizError code msg 403

/-- `ErrNotFound(code, msg)` (`http.StatusNotFound` = 404). -/
def ErrNotFound (code : JsonValue) (msg : String) : BaseBizError :=
  NewBizError code msg 404

/-- `ErrConflict(code, msg)` (`http.StatusConflict` = 409). -/
def ErrConflict (code : JsonValue) (msg : String) : BaseBizError :=
  NewBizError code msg 409

/-- `ErrInternalServer(code, msg)` (`http.StatusInternalServerError` = 500). -/
def ErrInternalServer (code : JsonValue) (msg : String) : BaseBizError :=
  NewBizError code msg 500

/-- A Go `error` value as seen by `handleError`.  `biz` is a value whose
dynamic type implements the `BizError` interface (`*BaseBizError`);
`generic` is any other error (for example `errors.New`); `wrapped` is a
wrapper such as `fmt.Errorf("...: %w", inner)`, whose dynamic type
(`*fmt.wrapError`) does not implement `BizError` even when the wrapped
inner error does. -/
inductive GoError where
  | biz (e : BaseBizError) : GoError
  | generic (msg : String) : GoError
  | wrapped (msg : String) (inner : GoError) : GoError

/-- `err.Error()`: a wrapper reports its own (already formatted) message. -/
def GoError.errorMessage : GoError → String
  | .biz e => e.message
  | .generic msg => msg
  | .wrapped msg _ => msg

/-- `ErrorResponse` (`api_handler.go`): body shape for error envelopes.
`Errors` carries the `json:"errors,omitempty"` tag. -/
structure ErrorResponse where
  code : JsonValue
  message : String
  errors : List JsonValue

/-- JSON serialization of `ErrorResponse`: `errors` is dropped entirely when
the slice is nil/empty (`omitempty`). -/
def serializeErrorResponse (r : ErrorResponse) : JsonValue :=
  .obj ([("code", r.code), ("message", .str r.message)] ++
    (if r.errors.isEmpty then [] else [("errors", JsonValue.arr r.errors)]))

/-- JSON serialization of `SuccessResponse[R]`: `Data` is a pointer field with
no `omitempty`, so a nil response pointer serializes as `"data": null`. -/
def serializeSuccessResponse (code : JsonValue) (data : Option JsonValue) : JsonValue :=
  .obj [("code", code), ("data", data.getD .null)]

/-- An HTTP response as produced by `c.JSON(status, body)`. -/
structure HttpResponse where
  status : Nat
  body : JsonValue

/-- `handleError` (`api_handler.go`): a direct type assertion `err.(BizError)`
selects the business-error path; every other dynamic type falls through to a
fixed 500 response whose code is the number 500 and whose message is the
error's own message. -/
def handleError (err : GoError) : HttpResponse :=
  match err with
  | .biz bizErr =>
      { status := bizErr.httpCode,
        body := serializeErrorResponse
          { code := bizErr.code, message := bizErr.message, errors := bizErr.errors } }
  | e =>
      { status := 500,
        body := serializeErrorResponse
          { code := .num 500, message := e.errorMessage, errors := [] } }

/-- `strconv.Quote` restricted to the inputs this adapter can see: wrap in
double quotes, escaping backslashes and double quotes (the full Go function
additionally escapes non-printable characters, which never occur in the
claims' inputs). -/
def goQuote (s : String) : String :=
  "\"" ++ String.join (s.toList.map fun c =>
    if c = '"' then "\\\"" else if c = '\\' then "\\\\" else c.toString) ++ "\""

/-- `(*strconv.NumError).Error()` with `Err = strconv.ErrSyntax`. -/
def numErrorSyntax (fn s : String) : String :=
  "strconv." ++ fn ++ ": parsing " ++ goQuote s ++ ": invalid syntax"

/-- `(*strconv.NumError).Error()` with `Err = strconv.ErrRange`. -/
def numErrorRange (fn s : String) : String :=
  "strconv." ++ fn ++ ": parsing " ++ goQuote s ++ ": value out of range"

/-- Value of a base-10 digit run (most significant first). -/
def digitsVal (cs : List Char) : Nat :=
  cs.foldl (fun acc c => acc * 10 + (c.toNat - ('0').toNat)) 0

/-- `strconv.ParseUint(s, 10, 64)`: no sign allowed, digits only, range
`[0, 2^64-1]`; error strings follow `strconv.NumError`. -/
def ParseUint64 (s : String) : Except String Nat :=
  let cs := s.toList
  if cs.isEmpty then .error (numErrorSyntax "ParseUint" s)
  else if cs.all Char.isDigit then
    let n := digitsVal cs
    if n < 2 ^ 64 then .ok n else .error (numErrorRange "ParseUint" s)
  else .error (numErrorSyntax "ParseUint" s)

/-- `strconv.ParseInt(s, 10, 64)`: optional leading `+`/`-`, then digits,
range `[-2^63, 2^63-1]`; error strings cite the original input including the
sign, as Go's implementation does. -/
def ParseInt64 (s : String) : Except String Int :=
  match s.toList with
  | [] => .error (numErrorSyntax "ParseInt" s)
  | c :: rest =>
    let signedDigits : Bool × List Char :=
      if c = '-' then (true, rest) else if c = '+' then (false, rest) else (false, c :: rest)
    let neg := signedDigits.1
    let digits := signedDigits.2
    if digits.isEmpty then .error (numErrorSyntax "ParseInt" s)
    else if digits.all Char.isDigit then
      let un := digitsVal digits
      if neg then
        if un > 2 ^ 63 then .error (numErrorRange "ParseInt" s)
        else .ok (-(un : Int))
      else
        if un ≥ 2 ^ 63 then .error (numErrorRange "ParseInt" s)
        else .ok (un : Int)
    else .error (numErrorSyntax "ParseInt" s)

/-- `reflect.Kind` of a declared request-struct field, as dispatched by
`bindPathParams`; `otherKind` carries the `Kind().String()` name of any kind
outside the three supported ones. -/
inductive GoKind where
  | stringKind : GoKind
  | int64Kind : GoKind
  | uint64Kind : GoKind
  | otherKind (kindName : String) : GoKind

/-- `field.Type.Kind().String()`. -/
def GoKind.kindName : GoKind → String
  | .stringKind => "string"
  | .int64Kind => "int64"
  | .uint64Kind => "uint64"
  | .otherKind n => n

/-- Current value of a request-struct field (fresh requests start at the
zero value of their kind). -/
inductive FieldVal where
  | strVal (s : String) : FieldVal
  | intVal (n : Int) : FieldVal
  | uintVal (n : Nat) : FieldVal
  | zeroVal : FieldVal

/-- A declared struct field as seen by reflection in `bindPathParams`:
name, kind, the value of its `path` tag (`""` when absent), and whether
`reflect.Value.CanSet` holds (false for unexported fields). -/
structure StructField where
  name : String
  kind : GoKind
  pathTag : String
  canSet : Bool

/-- `c.Param(key)`: gin returns the empty string for an absent parameter. -/
def getParam (params : List (String × String)) (key : String) : String :=
  match params.lookup key with
  | some v => v
  | none => ""

/-- One iteration of the field loop in `bindPathParams` (`api_handler.go`):
skip fields without a `path` tag, skip absent/empty parameter values, skip
unsettable fields, then dispatch on the declared kind — `string` takes the
raw value, `int64`/`uint64` parse base-10 with 64-bit range, every other
kind is rejected. -/
def bindField (params : List (String × String)) (field : StructField)
    (v : FieldVal) : Except String FieldVal :=
  if field.pathTag = "" then .ok v
  else
    let paramValue := getParam params field.pathTag
    if paramValue = "" then .ok v
    else if !field.canSet then .ok v
    else
      match field.kind with
      | .stringKind => .ok (.strVal paramValue)
      | .int64Kind =>
        match ParseInt64 paramValue with
        | .ok val => .ok (.intVal val)
        | .error e => .error ("字段 " ++ field.name ++ " 解析失败: " ++ e)
      | .uint64Kind =>
        match ParseUint64 paramValue with
        | .ok val => .ok (.uintVal val)
        | .error e => .error ("字段 " ++ field.name ++ " 解析失败: " ++ e)
      | .otherKind kname =>
        .error ("字段 " ++ field.name ++ " 的类型 " ++ kname ++ " 不支持路径绑定")

/-- `bindPathParams` (`api_handler.go`): iterate the struct's fields in
declaration order, binding each from the named path parameter; the first
failing field aborts with its error. -/
def bindPathParams (params : List (String × String)) :
    List (StructField × FieldVal) → Except String (List (StructField × FieldVal))
  | [] => .ok []
  | (f, v) :: rest =>
    match bindField params f v with
    | .error e => .error e
    | .ok v2 =>
      match bindPathParams params rest with
      | .error e => .error e
      | .ok rest2 => .ok ((f, v2) :: rest2)

/-- `HandlerWithCode` (`api_handler.go`), the per-request closure body.
External collaborators enter as data: `shouldBindError` is the outcome of
`c.ShouldBind(req)` (`some` holds the error's `%v` rendering on failure),
`params` are the route's path parameters, `req` is the freshly allocated
request struct, and `handleFunc` is the business function (its `*R` result
is `Option JsonValue`, `none` modelling a nil response pointer).  The
optional request logger is a pure side effect with no observable output and
is not modelled. -/
def HandlerWithCode
    (handleFunc : List (StructField × FieldVal) → Except GoError (Option JsonValue))
    (successCode : JsonValue) (successHTTPCode : Nat) (bindErrorCode : JsonValue)
    (shouldBindError : Option String)
    (params : List (String × String))
    (req : List (StructField × FieldVal)) : HttpResponse :=
  match shouldBindError with
  | some errText =>
      handleError (.biz (NewBizError bindErrorCode ("参数绑定失败: " ++ errText) 400))
  | none =>
    match bindPathParams params req with
    | .error e =>
        handleError (.biz (NewBizError bindErrorCode ("路径参数绑定失败: " ++ e) 400))
    | .ok bound =>
      match handleFunc bound with
      | .error err => handleError err
      | .ok resp =>
          { status := successHTTPCode, body := serializeSuccessResponse successCode resp }

/-- `MessageKey` (`i18n.go`): the seven predefined message keys. -/
inductive MessageKey where
  | bindError : MessageKey
  | bindErrorDetail : MessageKey
  | pathBindError : MessageKey
  | fieldValidationFailed : MessageKey
  | fieldValidationFailedWithParam : MessageKey
  | fieldParseFailed : MessageKey
  | fieldTypeNotSupported : MessageKey
deriving DecidableEq

/-- `defaultMessages` (`i18n.go`): the Chinese (default-locale) table,
modelled as an association list so that a missing key stays representable
(Go maps report presence through the two-valued lookup). -/
def defaultMessages : List (MessageKey × String) :=
  [(.bindError, "参数绑定失败"),
   (.bindErrorDetail, "参数绑定失败: %v"),
   (.pathBindError, "路径参数绑定失败: %v"),
   (.fieldValidationFailed, "字段验证失败: %s"),
   (.fieldValidationFailedWithParam, "字段验证失败: %s=%s"),
   (.fieldParseFailed, "字段 %s 解析失败: %v"),
   (.fieldTypeNotSupported, "字段 %s 的类型 %s 不支持路径绑定")]

/-- `englishMessages` (`i18n.go`). -/
def englishMessages : List (MessageKey × String) :=
  [(.bindError, "Parameter binding failed"),
   (.bindErrorDetail, "Parameter binding failed: %v"),
   (.pathBindError, "Path parameter binding failed: %v"),
   (.fieldValidationFailed, "Field validation failed: %s"),
   (.fieldValidationFailedWithParam, "Field validation failed: %s=%s"),
   (.fieldParseFailed, "Field %s parsing failed: %v"),
   (.fieldTypeNotSupported, "Field %s type %s does not support path binding")]

/-- Go map read `m[key]` without the `ok` flag: zero value `""` on a miss. -/
def mapGet (m : List (MessageKey × String)) (key : MessageKey) : String :=
  (m.lookup key).getD ""

/-- `%!(EXTRA ...)` payload for surplus `fmt.Sprintf` arguments; every
argument that reaches `Translate` in this repository is a string (or an
error rendered through `%v`), so the reported type is always `string`. -/
def sprintfExtras : List String → String
  | [] => ""
  | [a] => "string=" ++ a
  | a :: rest => "string=" ++ a ++ ", " ++ sprintfExtras rest

/-- `fmt.Sprintf` restricted to the verbs the message tables use (`%s`,
`%v`, and literal `%%`), consuming arguments positionally; missing and
surplus arguments render the way `fmt` reports them. -/
def sprintfAux : List Char → List String → String
  | [], [] => ""
  | [], a :: rest => "%!(EXTRA " ++ sprintfExtras (a :: rest) ++ ")"
  | '%' :: 's' :: fmtRest, a :: args => a ++ sprintfAux fmtRest args
  | '%' :: 's' :: fmtRest, [] => "%!s(MISSING)" ++ sprintfAux fmtRest []
  | '%' :: 'v' :: fmtRest, a :: args => a ++ sprintfAux fmtRest args
  | '%' :: 'v' :: fmtRest, [] => "%!v(MISSING)" ++ sprintfAux fmtRest []
  | '%' :: '%' :: fmtRest, args => "%" ++ sprintfAux fmtRest args
  | c :: fmtRest, args => c.toString ++ sprintfAux fmtRest args

/-- `fmt.Sprintf(format, args...)` over string arguments. -/
def sprintf (format : String) (args : List String) : String :=
  sprintfAux format.toList args

/-- `SimpleTranslator` (`i18n.go`): a locale name and its message table. -/
structure SimpleTranslator where
  locale : String
  messages : List (MessageKey × String)

/-- `NewSimpleTranslator(locale)`: the locales `"en"`, `"en-US"`, `"en_US"`
select the English table; every other locale string falls to the Chinese
default table. -/
def NewSimpleTranslator (locale : String) : SimpleTranslator :=
  let messages :=
    if locale = "en" ∨ locale = "en-US" ∨ locale = "en_US" then englishMessages
    else defaultMessages
  { locale := locale, messages := messages }

/-- `SimpleTranslator.Translate` (`i18n.go`): look the key up in the
translator's own table, falling back to the default (Chinese) table's entry
when absent; format the resolved template with the arguments when any are
supplied, otherwise return it verbatim. -/
def SimpleTranslator.Translate (t : SimpleTranslator) (key : MessageKey)
    (args : List String) : String :=
  let format :=
    match t.messages.lookup key with
    | some f => f
    | none => mapGet defaultMessages key
  if args.length > 0 then sprintf format args else format

/-- `DefaultTranslator` (`i18n.go`). -/
def DefaultTranslator : SimpleTranslator := NewSimpleTranslator "zh"

/-- `DefaultLocaleFunc` (`i18n.go`), applied to the `Accept-Language`
header value (empty string when the header is absent): default `"zh"` when
empty or shorter than two characters, otherwise the first two characters.
Go slices bytes rather than characters here; the two agree on ASCII header
values, and on multi-byte values both sides select the Chinese table, so
the character-level model is observationally faithful. -/
def DefaultLocaleFunc (acceptLanguage : String) : String :=
  if acceptLanguage = "" then "zh"
  else if acceptLanguage.length ≥ 2 then String.mk (acceptLanguage.toList.take 2)
  else "zh"

/-- Modelled from the spec: the translator-resolution step of the request
adapter.  The i18n-aware variant of `HandlerWithCode` (the one registered
with `WithTranslator`/`WithLocaleFunc` and exercised by `i18n_test.go`) is
missing from the source snapshot; §4.4 step 2 of the spec: "explicit
translator configured → use it; else resolve locale via configured locale
function, else a default locale function reading `Accept-Language`, then
construct a table-backed translator for that locale." -/
def resolveTranslator (translator : Option SimpleTranslator)
    (localeFunc : Option (String → String)) (acceptLanguage : String) : SimpleTranslator :=
  match translator with
  | some t => t
  | none =>
    let locale :=
      match localeFunc with
      | some f => f acceptLanguage
      | none => DefaultLocaleFunc acceptLanguage
    NewSimpleTranslator locale

/-- A structured per-field validation failure reported by the external
binder (`validator.FieldError`): failing field name, rule tag, optional
rule parameter. -/
structure FieldError where
  field : String
  tag : String
  param : String

/-- Modelled from the spec: the localized message of one field failure.
§6: the field-validation-failed template takes one argument (the rule tag);
the with-param variant takes two (rule tag, rule parameter). -/
def fieldErrorMessage (t : SimpleTranslator) (fe : FieldError) : String :=
  if fe.param = "" then t.Translate .fieldValidationFailed [fe.tag]
  else t.Translate .fieldValidationFailedWithParam [fe.tag, fe.param]

/-- The error returned by the external generic binder: either structured
per-field validation failures (`validator.ValidationErrors`) or any other
error, carried as its message text. -/
inductive BindError where
  | validation (errs : List FieldError) : BindError
  | other (msg : String) : BindError

/-- Modelled from the spec: the generic-bind failure branch of the
i18n-aware request adapter, which is missing from the source snapshot (its
tests `TestBindValidationErrorWithDetails` and `i18n_test.go` are present).
§4.4 step 3: "if the underlying error exposes structured per-field
validation failures, translate each into a sub-error {field, message} pair
and emit a BusinessError with the configured bind-error code, a generic
binding-failed message, HTTP 400, and the sub-error list; otherwise emit a
BusinessError with the configured bind-error code, a binding-failed message
with the detail interpolated via the translator, HTTP 400, no sub-errors." -/
def handleBindError (bindErrorCode : JsonValue) (t : SimpleTranslator)
    (err : BindError) : BaseBizError :=
  match err with
  | .validation errs =>
      NewBizErrorWithDetails bindErrorCode (t.Translate .bindError []) 400
        (errs.map fun fe =>
          JsonValue.obj [("field", .str fe.field), ("message", .str (fieldErrorMessage t fe))])
  | .other msg =>
      NewBizError bindErrorCode (t.Translate .bindErrorDetail [msg]) 400

/-- Wire shape of the success envelope: exactly the keys `code`, `data`. -/
def isSuccessEnvelopeShape (b : JsonValue) : Prop :=
  b.objKeys = ["code", "data"]

/-- Wire shape of the error envelope: keys `code`, `message`, with `errors`
present only when it carries a non-empty list. -/
def isErrorEnvelopeShape (b : JsonValue) : Prop :=
  b.objKeys = ["code", "message"] ∨
  ∃ c m es, es ≠ [] ∧ b = .obj [("code", c), ("message", .str m), ("errors", .arr es)]

theorem serializeErrorResponse_shape (r : ErrorResponse) :
    isErrorEnvelopeShape (serializeErrorResponse r) := by
  by_cases h : r.errors = []
  · left
    simp [serializeErrorResponse, h, JsonValue.objKeys]
  · right
    refine ⟨r.code, r.message, r.errors, h, ?_⟩
    have hne : r.errors.isEmpty = false := by
      cases hl : r.errors with
      | nil => exact absurd hl h
      | cons a l => rfl
    simp [serializeErrorResponse, hne]

theorem handleError_body_shape (err : GoError) :
    isErrorEnvelopeShape (handleError err).body := by
  cases err <;> exact serializeErrorResponse_shape _

theorem errorShape_not_successShape (b : JsonValue) (h : isErrorEnvelopeShape b) :
    ¬ isSuccessEnvelopeShape b := by
  intro hs
  rcases h with h1 | ⟨c, m, es, _, hb⟩
  · rw [hs] at h1
    exact absurd h1 (by decide)
  · rw [hb] at hs
    simp [isSuccessEnvelopeShape, JsonValue.objKeys] at hs

theorem successShape_not_errorShape (b : JsonValue) (h : isSuccessEnvelopeShape b) :
    ¬ isErrorEnvelopeShape b := by
  intro he
  exact errorShape_not_successShape b he h

/-- C2: every error from the business function is dispatched by a direct
capability check: a value implementing `BizError` answers with its own HTTP
status and a body of its code, message and (only-if-non-empty) sub-errors;
every other error value answers HTTP 500 with body code 500 and the error's
message, with no errors key. -/
theorem handleError_dispatch (e : BaseBizError) (msg : String) (inner : GoError) :
    handleError (.biz e) =
      { status := e.httpCode,
        body := .obj ([("code", e.code), ("message", .str e.message)] ++
          (if e.errors.isEmpty then [] else [("errors", JsonValue.arr e.errors)])) } ∧
    handleError (.generic msg) =
      { status := 500, body := .obj [("code", .num 500), ("message", .str msg)] } ∧
    handleError (.wrapped msg inner) =
      { status := 500, body := .obj [("code", .num 500), ("message", .str msg)] } :=
  ⟨rfl, rfl, rfl⟩

/-- C9: an error that merely wraps a business error (for example
`fmt.Errorf("...: %w", bizErr)`) does not itself implement `BizError`, so
the adapter classifies it as unclassified: HTTP 500, code 500, the
wrapper's message — never the inner error's status, code or sub-errors. -/
theorem wrapped_biz_error_unclassified (msg : String) (e : BaseBizError) :
    handleError (.wrapped msg (.biz e)) =
      { status := 500, body := .obj [("code", .num 500), ("message", .str msg)] } :=
  rfl

/-- C6: the six preset constructors fix the HTTP status to exactly
400/401/403/404/409/500 while passing the supplied code and message through
unchanged (and producing no sub-errors). -/
theorem preset_constructors_fixed_status (code : JsonValue) (msg : String) :
    ErrBadRequest code msg = { code := code, message := msg, httpCode := 400, errors := [] } ∧
    ErrUnauthorized code msg = { code := code, message := msg, httpCode := 401, errors := [] } ∧
    ErrForbidden code msg = { code := code, message := msg, httpCode := 403, errors := [] } ∧
    ErrNotFound code msg = { code := code, message := msg, httpCode := 404, errors := [] } ∧
    ErrConflict code msg = { code := code, message := msg, httpCode := 409, errors := [] } ∧
    ErrInternalServer code msg = { code := code, message := msg, httpCode := 500, errors := [] } :=
  ⟨rfl, rfl, rfl, rfl, rfl, rfl⟩

/-- C5: every request produces exactly one envelope — either the success
shape `{code, data}` or the error shape `{code, message[, errors]}` — and a
serialized error envelope carries the `errors` key only with a non-empty
list, never as an empty array. -/
theorem single_envelope_invariant
    (handleFunc : List (StructField × FieldVal) → Except GoError (Option JsonValue))
    (successCode : JsonValue) (successHTTPCode : Nat) (bindErrorCode : JsonValue)
    (shouldBindError : Option String) (params : List (String × String))
    (req : List (StructField × FieldVal)) :
    (isSuccessEnvelopeShape
        (HandlerWithCode handleFunc successCode successHTTPCode bindErrorCode
          shouldBindError params req).body ∧
      ¬ isErrorEnvelopeShape
        (HandlerWithCode handleFunc successCode successHTTPCode bindErrorCode
          shouldBindError params req).body) ∨
    (isErrorEnvelopeShape
        (HandlerWithCode handleFunc successCode successHTTPCode bindErrorCode
          shouldBindError params req).body ∧
      ¬ isSuccessEnvelopeShape
        (HandlerWithCode handleFunc successCode successHTTPCode bindErrorCode
          shouldBindError params req).body) := by
  unfold HandlerWithCode
  split
  · right
    exact ⟨handleError_body_shape _, errorShape_not_successShape _ (handleError_body_shape _)⟩
  · split
    · right
      exact ⟨handleError_body_shape _, errorShape_not_successShape _ (handleError_body_shape _)⟩
    · split
      · right
        exact ⟨handleError_body_shape _, errorShape_not_successShape _ (handleError_body_shape _)⟩
      · left
        exact ⟨rfl, successShape_not_errorShape _ rfl⟩

/-- C10: a business function returning a nil response pointer and no error
still takes the success path: the configured success HTTP status and code
are emitted with `data` serialized as null; a nil response is never treated
as an error. -/
theorem nil_response_success_envelope
    (handleFunc : List (StructField × FieldVal) → Except GoError (Option JsonValue))
    (successCode : JsonValue) (successHTTPCode : Nat) (bindErrorCode : JsonValue)
    (params : List (String × String)) (req bound : List (StructField × FieldVal))
    (hbind : bindPathParams params req = .ok bound)
    (hnil : handleFunc bound = .ok none) :
    HandlerWithCode handleFunc successCode successHTTPCode bindErrorCode none params req =
      { status := successHTTPCode,
        body := .obj [("code", successCode), ("data", JsonValue.null)] } := by
  simp [HandlerWithCode, hbind, hnil, serializeSuccessResponse]

theorem nil_response_success_envelope_witness :
    HandlerWithCode (fun _ => .ok none) (.num 0) 200 (.num 400) none [] [] =
      { status := 200, body := .obj [("code", .num 0), ("data", JsonValue.null)] } :=
  nil_response_success_envelope (fun _ => .ok none) (.num 0) 200 (.num 400) [] [] [] rfl rfl

/-- C3: for a settable field with a non-empty `path` tag and a non-empty
path parameter, binding dispatches on the declared kind: a string field
gets the raw parameter, an int64 field parses base-10 signed ("123" binds
123, "abc" fails with a parse error naming the field), a uint64 field
parses base-10 unsigned (max uint64 binds exactly), and every other kind
fails with a type-unsupported error naming the field and kind — exactly
three kinds are supported. -/
theorem path_binding_kind_dispatch
    (name pathTag : String) (v : FieldVal) (params : List (String × String))
    (htag : pathTag ≠ "") :
    (∀ s, getParam params pathTag = s → s ≠ "" →
      bindField params ⟨name, .stringKind, pathTag, true⟩ v = .ok (.strVal s)) ∧
    (∀ s n, getParam params pathTag = s → s ≠ "" → ParseInt64 s = .ok n →
      bindField params ⟨name, .int64Kind, pathTag, true⟩ v = .ok (.intVal n)) ∧
    (getParam params pathTag = "123" →
      bindField params ⟨name, .int64Kind, pathTag, true⟩ v = .ok (.intVal 123)) ∧
    (getParam params pathTag = "abc" →
      bindField params ⟨name, .int64Kind, pathTag, true⟩ v =
        .error ("字段 " ++ name ++ " 解析失败: " ++
          "strconv.ParseInt: parsing \"abc\": invalid syntax")) ∧
    (∀ s n, getParam params pathTag = s → s ≠ "" → ParseUint64 s = .ok n →
      bindField params ⟨name, .uint64Kind, pathTag, true⟩ v = .ok (.uintVal n)) ∧
    (getParam params pathTag = "18446744073709551615" →
      bindField params ⟨name, .uint64Kind, pathTag, true⟩ v = .ok (.uintVal (2 ^ 64 - 1))) ∧
    (∀ kname s, getParam params pathTag = s → s ≠ "" →
      bindField params ⟨name, .otherKind kname, pathTag, true⟩ v =
        .error ("字段 " ++ name ++ " 的类型 " ++ kname ++ " 不支持路径绑定")) := by
  refine ⟨?_, ?_, ?_, ?_, ?_, ?_, ?_⟩
  · intro s hs hne
    simp [bindField, htag, hs, hne]
  · intro s n hs hne hp
    simp [bindField, htag, hs, hne, hp]
  · intro h
    simp [bindField, htag, h]
    rfl
  · intro h
    simp [bindField, htag, h]
    rfl
  · intro s n hs hne hp
    simp [bindField, htag, hs, hne, hp]
  · intro h
    simp [bindField, htag, h]
    rfl
  · intro kname s hs hne
    simp [bindField, htag, hs, hne]

theorem path_binding_kind_dispatch_witness :
    bindField [("id", "123")] ⟨"ID", .int64Kind, "id", true⟩ .zeroVal = .ok (.intVal 123) ∧
    bindField [("id", "abc")] ⟨"ID", .int64Kind, "id", true⟩ .zeroVal =
      .error "字段 ID 解析失败: strconv.ParseInt: parsing \"abc\": invalid syntax" ∧
    bindField [("id", "18446744073709551615")] ⟨"ID", .uint64Kind, "id", true⟩ .zeroVal =
      .ok (.uintVal 18446744073709551615) ∧
    bindField [("name", "hello")] ⟨"Name", .stringKind, "name", true⟩ .zeroVal =
      .ok (.strVal "hello") ∧
    bindField [("id", "1")] ⟨"F", .otherKind "float64", "id", true⟩ .zeroVal =
      .error "字段 F 的类型 float64 不支持路径绑定" := by
  have h1 := path_binding_kind_dispatch "ID" "id" .zeroVal [("id", "123")] (by decide)
  have h2 := path_binding_kind_dispatch "ID" "id" .zeroVal [("id", "abc")] (by decide)
  have h3 := path_binding_kind_dispatch "ID" "id" .zeroVal
    [("id", "18446744073709551615")] (by decide)
  have h4 := path_binding_kind_dispatch "Name" "name" .zeroVal [("name", "hello")] (by decide)
  have h5 := path_binding_kind_dispatch "F" "id" .zeroVal [("id", "1")] (by decide)
  exact ⟨h1.2.2.1 rfl, h2.2.2.2.1 rfl, h3.2.2.2.2.2.1 rfl,
    h4.1 "hello" rfl (by decide), h5.2.2.2.2.2.2 "float64" "1" rfl (by decide)⟩

/-- C4: a path-tagged field whose parameter is absent or empty is left at
its prior value with no error, and fields without a `path` tag or that are
not settable are silently skipped, whatever their kind. -/
theorem path_binding_skip (field : StructField) (v : FieldVal)
    (params : List (String × String)) :
    (getParam params field.pathTag = "" → bindField params field v = .ok v) ∧
    (field.pathTag = "" → bindField params field v = .ok v) ∧
    (field.canSet = false → bindField params field v = .ok v) := by
  refine ⟨?_, ?_, ?_⟩
  · intro h
    by_cases htag : field.pathTag = "" <;> simp [bindField, htag, h]
  · intro h
    simp [bindField, h]
  · intro h
    by_cases htag : field.pathTag = "" <;>
      by_cases hp : getParam params field.pathTag = "" <;>
        simp [bindField, htag, hp, h]

theorem path_binding_skip_witness :
    bindField [] ⟨"F", .otherKind "float64", "id", true⟩ .zeroVal = .ok .zeroVal ∧
    bindField [("id", "9")] ⟨"F", .otherKind "bool", "", true⟩ .zeroVal = .ok .zeroVal ∧
    bindField [("id", "9")] ⟨"f", .otherKind "float64", "id", false⟩ .zeroVal = .ok .zeroVal :=
  ⟨(path_binding_skip ⟨"F", .otherKind "float64", "id", true⟩ .zeroVal []).1 rfl,
    (path_binding_skip ⟨"F", .otherKind "bool", "", true⟩ .zeroVal [("id", "9")]).2.1 rfl,
    (path_binding_skip ⟨"f", .otherKind "float64", "id", false⟩ .zeroVal [("id", "9")]).2.2 rfl⟩

/-- C1: a failed generic bind with structured per-field validation failures
becomes a business error carrying the configured bind-error code, the
locale-translated generic binding-failed message, HTTP 400, and one
{field, message} sub-error per failing field with a locale-translated
message; an unstructured binder error becomes the configured code with the
translated binding-failed-with-detail message, HTTP 400, and no
sub-errors. -/
theorem bind_failure_emission (bindErrorCode : JsonValue) (t : SimpleTranslator) :
    (∀ errs, handleBindError bindErrorCode t (.validation errs) =
      { code := bindErrorCode, message := t.Translate .bindError [], httpCode := 400,
        errors := errs.map fun fe =>
          JsonValue.obj [("field", .str fe.field),
            ("message", .str (fieldErrorMessage t fe))] }) ∧
    (∀ err, (handleBindError bindErrorCode t err).httpCode = 400 ∧
      (handleBindError bindErrorCode t err).code = bindErrorCode) ∧
    (∀ msg, handleBindError bindErrorCode t (.other msg) =
      { code := bindErrorCode, message := t.Translate .bindErrorDetail [msg],
        httpCode := 400, errors := [] }) ∧
    ((NewSimpleTranslator "en").Translate .bindError [] = "Parameter binding failed") ∧
    ((NewSimpleTranslator "zh").Translate .bindErrorDetail ["boom"] = "参数绑定失败: boom") ∧
    (fieldErrorMessage (NewSimpleTranslator "en") ⟨"Name", "required", ""⟩ =
      "Field validation failed: required") := by
  refine ⟨fun errs => rfl, fun err => ?_, fun msg => rfl, rfl, rfl, rfl⟩
  cases err <;> exact ⟨rfl, rfl⟩

/-- C7: translation resolves the key in the selected locale's table, falls
back to the default (Chinese) table's template when the key is absent
rather than erroring, applies printf-style positional formatting when
arguments are supplied, and returns the template verbatim otherwise. -/
theorem translate_lookup_fallback (t : SimpleTranslator) (key : MessageKey)
    (args : List String) :
    (∀ f, t.messages.lookup key = some f →
      t.Translate key args = if args.length > 0 then sprintf f args else f) ∧
    (t.messages.lookup key = none →
      t.Translate key args =
        if args.length > 0 then sprintf (mapGet defaultMessages key) args
        else mapGet defaultMessages key) ∧
    (∀ f, args = [] → t.messages.lookup key = some f → t.Translate key args = f) ∧
    ((NewSimpleTranslator "zh").Translate .fieldParseFailed ["Name", "oops"] =
      "字段 Name 解析失败: oops") := by
  refine ⟨?_, ?_, ?_, rfl⟩
  · intro f hf
    simp [SimpleTranslator.Translate, hf]
  · intro h
    simp [SimpleTranslator.Translate, h]
  · intro f ha hf
    subst ha
    simp [SimpleTranslator.Translate, hf]

theorem translate_lookup_fallback_witness :
    (SimpleTranslator.mk "xx" []).Translate .bindError [] = "参数绑定失败" := by
  have h := (translate_lookup_fallback ⟨"xx", []⟩ .bindError []).2.1 rfl
  exact h

/-- C8: without an explicit translator, the locale is the first two
characters of the Accept-Language header ("zh" when the header is empty or
shorter than two characters); the locales "en", "en-US" and "en_US" select
the English table and every other locale the Chinese table; a configured
explicit translator bypasses header-derived locale detection entirely. -/
theorem locale_resolution (hdr loc : String) (t : SimpleTranslator)
    (lf : Option (String → String)) :
    (hdr = "" → DefaultLocaleFunc hdr = "zh") ∧
    (hdr.length ≥ 2 → DefaultLocaleFunc hdr = String.mk (hdr.toList.take 2)) ∧
    (hdr.length < 2 → DefaultLocaleFunc hdr = "zh") ∧
    ((NewSimpleTranslator "en").messages = englishMessages ∧
      (NewSimpleTranslator "en-US").messages = englishMessages ∧
      (NewSimpleTranslator "en_US").messages = englishMessages) ∧
    (loc ≠ "en" → loc ≠ "en-US" → loc ≠ "en_US" →
      (NewSimpleTranslator loc).messages = defaultMessages) ∧
    (resolveTranslator (some t) lf hdr = t) ∧
    (resolveTranslator none none hdr = NewSimpleTranslator (DefaultLocaleFunc hdr)) := by
  refine ⟨?_, ?_, ?_, ⟨rfl, rfl, rfl⟩, ?_, rfl, rfl⟩
  · intro h
    subst h
    rfl
  · intro h
    have hne : hdr ≠ "" := by
      intro he
      subst he
      simp at h
    simp [DefaultLocaleFunc, hne, h]
  · intro h
    by_cases he : hdr = ""
    · simp [DefaultLocaleFunc, he]
    · have h2 : ¬ (hdr.length ≥ 2) := by omega
      simp [DefaultLocaleFunc, he, h2]
  · intro h1 h2 h3
    simp [NewSimpleTranslator, h1, h2, h3]

theorem locale_resolution_witness :
    DefaultLocaleFunc "en-US,en;q=0.9" = "en" ∧
    DefaultLocaleFunc "e" = "zh" ∧
    (NewSimpleTranslator "fr").messages = defaultMessages ∧
    resolveTranslator (some (NewSimpleTranslator "en")) none "zh" = NewSimpleTranslator "en" := by
  have h := locale_resolution "en-US,en;q=0.9" "fr" (NewSimpleTranslator "en") none
  have h2 := locale_resolution "e" "fr" (NewSimpleTranslator "en") none
  exact ⟨h.2.1 (by decide), h2.2.2.1 (by decide),
    h.2.2.2.2.1 (by decide) (by decide) (by decide), h.2.2.2.2.2.1⟩

end GinApiHandler
